import Mathlib

/-!
Shallow embedding of the Claude OAuth PKCE credential manager found in
src/unnamed/part_000 of the Titan repository.

Effectful operations are modelled by explicit state and environment
passing:
- the credential file on disk is an `FsState` (directory existence plus
  the optional file content and its permission mode);
- injected failures of the file-system primitives (read, mkdir, write,
  chmod) are an `FsEnv`;
- the single token-endpoint HTTP interaction of one invocation is a
  `FetchResult` (successful JSON body, non-success HTTP status, transport
  error, or undecodable body);
- the clock `Date.now()` is an integer number of milliseconds;
- `crypto.randomBytes(32)` is a 32-element byte list supplied as input,
  and the SHA-256 primitive of the Node crypto library is a parameter
  `sha : List Nat → List Nat` (the code treats it as an abstract digest).

A JavaScript value parsed from JSON with possibly missing fields is a
`JsonCred` whose fields are `Option`s (`none` models a missing or
undefined field); exceptions are modelled with `Except`, and functions
that catch all exceptions return plain values.
-/

/-- Fixed OAuth client identifier, line 19 of the source. -/
def CLIENT_ID : String := "9d1c250a-e61b-44d9-88ed-5944d1962f5e"

/-- Fixed redirect target used in both the consent URL and the code
exchange body, lines 51 and 75 of the source. -/
def REDIRECT_URI : String := "https://console.anthropic.com/oauth/code/callback"

/-- The Credentials interface of the source (lines 22 to 26): all three
fields present. Times are absolute milliseconds since epoch. -/
structure Credentials where
  access_token : String
  refresh_token : String
  expires_at : Int
  deriving Repr, DecidableEq

/-- A JavaScript object obtained from JSON.parse of the credential file:
each field may be missing, since JSON.parse performs no schema check. -/
structure JsonCred where
  access_token : Option String
  refresh_token : Option String
  expires_at : Option Int
  deriving Repr, DecidableEq

/-- A `JsonCred` with all three fields present, as the Credentials
interface demands. -/
def isFullyValid (c : JsonCred) : Bool :=
  c.access_token.isSome && c.refresh_token.isSome && c.expires_at.isSome

/-- View of a fully valid credential as the parsed JSON object that
JSON.stringify followed by JSON.parse round-trips to. -/
def toJsonCred (c : Credentials) : JsonCred :=
  ⟨some c.access_token, some c.refresh_token, some c.expires_at⟩

/-- Content of the credential file: either bytes JSON.parse rejects, or a
valid JSON value parsed into a (possibly partial) credential object. -/
inductive FileBytes where
  | malformedJson
  | jsonCred (c : JsonCred)
  deriving Repr, DecidableEq

/-- State of the fixed credential path: whether the containing directory
exists, and the optional file with its content and permission mode. -/
structure FsState where
  dirExists : Bool
  claudeFile : Option (FileBytes × Nat)
  deriving Repr, DecidableEq

/-- Injected failures of the file-system primitives used by the store. -/
structure FsEnv where
  readFails : Bool
  mkdirFails : Bool
  writeFails : Bool
  chmodFails : Bool
  deriving Repr, DecidableEq

/-- Permission mode a plain fs.writeFile leaves on the file before chmod
runs (platform dependent; any value distinct from owner-only). -/
def defaultWriteMode : Nat := 420

/-- Owner read and write only, the 0o600 of line 122 of the source. -/
def ownerOnlyMode : Nat := 384

/-- loadCredentials, lines 128 to 135 of the source: fs.readFile followed
by JSON.parse inside a try block whose catch returns null. A missing
file, a failing read, or undecodable bytes all land in the catch; a file
holding any valid JSON value is returned as parsed with no field check. -/
def loadCredentials (env : FsEnv) (fs : FsState) : Option JsonCred :=
  if env.readFails then none
  else
    match fs.claudeFile with
    | none => none
    | some (.malformedJson, _) => none
    | some (.jsonCred c, _) => some c

/-- Outcome of saveCredentials: whether it completed without throwing,
and the resulting file-system state. -/
structure SaveResult where
  ok : Bool
  fs : FsState
  deriving Repr, DecidableEq

/-- saveCredentials, lines 118 to 126 of the source: fs.mkdir recursive on
the containing directory, fs.writeFile of the serialized credential, then
fs.chmod 0o600 inside a try block whose catch swallows the error. A mkdir
or write failure propagates; a chmod failure alone does not. -/
def saveCredentials (creds : Credentials) (env : FsEnv) (fs : FsState) : SaveResult :=
  if env.mkdirFails then ⟨false, fs⟩
  else
    let fs1 : FsState := ⟨true, fs.claudeFile⟩
    if env.writeFails then ⟨false, fs1⟩
    else
      let written : FileBytes := .jsonCred (toJsonCred creds)
      if env.chmodFails then ⟨true, ⟨true, some (written, defaultWriteMode)⟩⟩
      else ⟨true, ⟨true, some (written, ownerOnlyMode)⟩⟩

/-- The credential object stored on disk, when the file exists and holds
valid JSON. -/
def storedJson (fs : FsState) : Option JsonCred :=
  match fs.claudeFile with
  | some (.jsonCred c, _) => some c
  | _ => none

/-- JSON body of a successful token-endpoint response: access_token,
refresh_token and expires_in (seconds, relative), per lines 84 to 90 of
the source. The optional absolute field models any provider-issued
absolute expiry the body might additionally carry; the code never reads
it. -/
structure TokenData where
  access_token : String
  refresh_token : String
  expires_in : Int
  provider_expires_at : Option Int
  deriving Repr, DecidableEq

/-- Result of one fetch of the token endpoint: a success body, a
non-success HTTP status with its status text, a transport failure (fetch
itself throws), or a success status whose body fails to decode. -/
inductive FetchResult where
  | success (d : TokenData)
  | httpError (statusText : String)
  | networkError
  | malformedBody
  deriving Repr, DecidableEq

/-- True when the fetch outcome makes the exchange operation throw. -/
def isFetchFailure : FetchResult → Bool
  | .success _ => false
  | _ => true

/-- JavaScript String.split on a single separator character, over char
lists: split always yields at least one piece, and an empty input yields
one empty piece. -/
def splitChars (sep : Char) : List Char → List (List Char)
  | [] => [[]]
  | c :: rest =>
    if c = sep then [] :: splitChars sep rest
    else
      match splitChars sep rest with
      | [] => [[c]]
      | p :: ps => (c :: p) :: ps

/-- JavaScript String.split on a single separator character. -/
def jsSplit (sep : Char) (s : String) : List String :=
  (splitChars sep s.data).map String.mk

/-- Request body of the authorization_code grant, lines 70 to 77 of the
source. A `none` state models a JavaScript undefined field, which
JSON.stringify omits from the serialized body. -/
structure CodeExchangeBody where
  code : String
  state : Option String
  grant_type : String
  client_id : String
  redirect_uri : String
  code_verifier : String
  deriving Repr, DecidableEq

/-- The body exchangeCodeForTokens builds from its input: line 65 splits
the compound input on the hash delimiter, the first piece becomes the
code field and the second piece (undefined when the delimiter is absent)
becomes the state field. -/
def exchangeCodeBody (code verifier : String) : CodeExchangeBody :=
  let parts := jsSplit '#' code
  { code := parts.headD ""
    state := parts[1]?
    grant_type := "authorization_code"
    client_id := CLIENT_ID
    redirect_uri := REDIRECT_URI
    code_verifier := verifier }

/-- exchangeCodeForTokens, lines 61 to 91 of the source: returns the
request body it sends together with the thrown error or the credential
built from the response, whose expires_at is the receipt time plus
expires_in converted to milliseconds (line 89). -/
def exchangeCodeForTokens (code verifier : String) (fetch : FetchResult) (now : Int) :
    CodeExchangeBody × Except String Credentials :=
  (exchangeCodeBody code verifier,
    match fetch with
    | .success d => .ok ⟨d.access_token, d.refresh_token, now + d.expires_in * 1000⟩
    | .httpError st => .error ("Token exchange failed: " ++ st)
    | .networkError => .error "fetch failed"
    | .malformedBody => .error "response body decode failed")

/-- Request body of the refresh_token grant, lines 98 to 102 of the
source; the refresh token is an Option because the stored credential may
lack the field. -/
structure RefreshBody where
  grant_type : String
  refresh_token : Option String
  client_id : String
  deriving Repr, DecidableEq

/-- refreshAccessToken, lines 94 to 116 of the source: same contract as
the code exchange, with the refresh_token grant body and the same
expires_at computation (line 114). -/
def refreshAccessToken (refreshToken : Option String) (fetch : FetchResult) (now : Int) :
    RefreshBody × Except String Credentials :=
  (⟨"refresh_token", refreshToken, CLIENT_ID⟩,
    match fetch with
    | .success d => .ok ⟨d.access_token, d.refresh_token, now + d.expires_in * 1000⟩
    | .httpError st => .error ("Token refresh failed: " ++ st)
    | .networkError => .error "fetch failed"
    | .malformedBody => .error "response body decode failed")

/-- JavaScript comparison x > y where x may be undefined: a comparison
against undefined is NaN against a number, hence false. -/
def jsGtOpt (x : Option Int) (y : Int) : Bool :=
  match x with
  | none => false
  | some v => decide (v > y)

/-- Environment of one invocation of the high-level accessor: the
file-system state and failure injections, the clock reading, and the
token-endpoint behavior for the refresh request the invocation may
issue. -/
structure World where
  fs : FsState
  fsEnv : FsEnv
  now : Int
  refreshFetch : FetchResult

/-- Observable outcome of getClaudeAccessToken: the returned token or
null, the file-system state afterwards, and whether a token-endpoint
request was issued. -/
structure AccessResult where
  token : Option String
  fs : FsState
  refreshAttempted : Bool
  deriving Repr, DecidableEq

/-- getClaudeAccessToken, lines 141 to 158 of the source: load the
credential (null when absent); return the cached token with no network
call when expires_at exceeds now plus the 60000 ms buffer (line 146);
otherwise refresh and persist, with the catch on lines 155 to 157
turning any refresh or save failure into null. -/
def getClaudeAccessToken (w : World) : AccessResult :=
  match loadCredentials w.fsEnv w.fs with
  | none => ⟨none, w.fs, false⟩
  | some creds =>
    if jsGtOpt creds.expires_at (w.now + 60000) then
      ⟨creds.access_token, w.fs, false⟩
    else
      match (refreshAccessToken creds.refresh_token w.refreshFetch w.now).2 with
      | .error _ => ⟨none, w.fs, true⟩
      | .ok newCreds =>
        let sr := saveCredentials newCreds w.fsEnv w.fs
        if sr.ok then ⟨some newCreds.access_token, sr.fs, true⟩
        else ⟨none, sr.fs, true⟩

/-- Character of the URL-safe base64 alphabet at index n below 64:
capitals, lowercase, digits, minus, underscore. -/
def b64Char (n : Nat) : Char :=
  if n < 26 then Char.ofNat (65 + n)
  else if n < 52 then Char.ofNat (97 + (n - 26))
  else if n < 62 then Char.ofNat (48 + (n - 52))
  else if n = 62 then '-'
  else '_'

/-- Index of a character in the URL-safe base64 alphabet (junk value 0 on
characters outside the alphabet). -/
def b64Value (c : Char) : Nat :=
  if 'A' ≤ c && c ≤ 'Z' then c.toNat - 65
  else if 'a' ≤ c && c ≤ 'z' then c.toNat - 97 + 26
  else if '0' ≤ c && c ≤ '9' then c.toNat - 48 + 52
  else if c = '-' then 62
  else if c = '_' then 63
  else 0

/-- Membership in the URL-safe base64 alphabet. -/
def isB64UrlChar (c : Char) : Bool :=
  ('A' ≤ c && c ≤ 'Z') || ('a' ≤ c && c ≤ 'z') || ('0' ≤ c && c ≤ '9') ||
    c = '-' || c = '_'

/-- URL-safe base64 of a byte list with no padding: three bytes become
four alphabet characters, a trailing byte two, two trailing bytes three.
This is the base64url encoding of the Node Buffer toString. -/
def base64urlEncode : List Nat → List Char
  | [] => []
  | [b1] => [b64Char (b1 / 4), b64Char (b1 % 4 * 16)]
  | [b1, b2] => [b64Char (b1 / 4), b64Char (b1 % 4 * 16 + b2 / 16), b64Char (b2 % 16 * 4)]
  | b1 :: b2 :: b3 :: rest =>
    b64Char (b1 / 4) :: b64Char (b1 % 4 * 16 + b2 / 16) ::
      b64Char (b2 % 16 * 4 + b3 / 64) :: b64Char (b3 % 64) :: base64urlEncode rest

/-- Inverse of the unpadded URL-safe base64 encoding (junk on inputs that
are not the encoding of a byte list). -/
def base64urlDecode : List Char → List Nat
  | [] => []
  | [c1, c2] => [b64Value c1 * 4 + b64Value c2 / 16]
  | [c1, c2, c3] =>
    [b64Value c1 * 4 + b64Value c2 / 16, b64Value c2 % 16 * 16 + b64Value c3 / 4]
  | c1 :: c2 :: c3 :: c4 :: rest =>
    (b64Value c1 * 4 + b64Value c2 / 16) ::
      (b64Value c2 % 16 * 16 + b64Value c3 / 4) ::
      (b64Value c3 % 4 * 64 + b64Value c4) :: base64urlDecode rest
  | [_] => []

/-- Every element is a byte. -/
def ValidBytes (bs : List Nat) : Prop := ∀ b ∈ bs, b < 256

instance (bs : List Nat) : Decidable (ValidBytes bs) := by
  unfold ValidBytes; infer_instance

/-- UTF-8 bytes of a string; the strings the code hashes are base64url
output, pure ASCII, where UTF-8 bytes and code points agree. -/
def textBytes (s : String) : List Nat := s.data.map Char.toNat

/-- The PKCEPair interface of the source, lines 28 to 31. -/
structure PKCEPair where
  verifier : String
  challenge : String
  deriving Repr, DecidableEq

/-- generatePKCE, lines 34 to 42 of the source: the verifier is the
base64url text of 32 random bytes, the challenge the base64url text of
the SHA-256 digest of the verifier text bytes. The digest primitive and
the random draw are inputs of the model. -/
def generatePKCE (sha : List Nat → List Nat) (rand : List Nat) : PKCEPair :=
  let verifier := String.mk (base64urlEncode rand)
  ⟨verifier, String.mk (base64urlEncode (sha (textBytes verifier)))⟩

/-- getAuthorizationURL, lines 45 to 58 of the source, modelled as the
ordered query-parameter list of the consent URL. -/
def getAuthorizationURL (pkce : PKCEPair) : List (String × String) :=
  [("code", "true"),
   ("client_id", CLIENT_ID),
   ("response_type", "code"),
   ("redirect_uri", REDIRECT_URI),
   ("scope", "org:create_api_key user:profile user:inference"),
   ("code_challenge", pkce.challenge),
   ("code_challenge_method", "S256"),
   ("state", pkce.verifier)]

/-- JavaScript truthiness of a string-or-null value: null and the empty
string are falsy. -/
def jsTruthy : Option String → Bool
  | none => false
  | some s => s ≠ ""

/-- Environment of one invocation of the interactive flow: the accessor
world, the digest primitive and random draw for the PKCE pair, whether
the browser launch fails, the code the prompt supplies, and the
token-endpoint behavior for the code-exchange request. -/
structure FlowWorld where
  world : World
  sha : List Nat → List Nat
  rand : List Nat
  openFails : Bool
  promptedCode : String
  exchangeFetch : FetchResult

/-- Observable outcome of authenticateWithClaude: the thrown error or the
returned token, the file-system state afterwards, and which of the
interactive steps ran. -/
structure FlowResult where
  outcome : Except String String
  fs : FsState
  pkceGenerated : Bool
  browserAttempted : Bool
  prompted : Bool
  exchangeAttempted : Bool
  deriving Repr

/-- Lines 212 to 254 of the source: the interactive steps that run when
the accessor result is falsy. A browser-launch failure is swallowed
(lines 217 to 221); the authorization URL is surfaced and a code is
obtained (lines 223 to 243); the code exchange and the save run outside
any try block, so either failure propagates to the caller. -/
def continueFlow (fw : FlowWorld) (accFs : FsState) : FlowResult :=
  let pkce := generatePKCE fw.sha fw.rand
  match (exchangeCodeForTokens fw.promptedCode pkce.verifier fw.exchangeFetch fw.world.now).2 with
  | .error e => ⟨.error e, accFs, true, true, true, true⟩
  | .ok creds =>
    let sr := saveCredentials creds fw.world.fsEnv accFs
    if sr.ok then ⟨.ok creds.access_token, sr.fs, true, true, true, true⟩
    else ⟨.error "save failed", sr.fs, true, true, true, true⟩

/-- authenticateWithClaude, lines 207 to 254 of the source: line 209 runs
the accessor once, and line 210 returns its token when truthy, reaching
none of the interactive steps; otherwise the flow of continueFlow runs on
the file-system state the accessor left. -/
def authenticateWithClaude (fw : FlowWorld) : FlowResult :=
  let acc := getClaudeAccessToken fw.world
  if jsTruthy acc.token then
    ⟨.ok (acc.token.getD ""), acc.fs, false, false, false, false⟩
  else continueFlow fw acc.fs

/-! Concrete inputs used to instantiate the theorems below. -/

/-- Environment in which every file-system primitive succeeds. -/
def envClean : FsEnv := ⟨false, false, false, false⟩

/-- A parsed credential file missing two of the three fields. -/
def incompleteCred : JsonCred := ⟨some "A", none, none⟩

/-- A file-system state holding valid JSON that is not a full credential. -/
def fsIncomplete : FsState := ⟨true, some (.jsonCred incompleteCred, ownerOnlyMode)⟩

/-- A file-system state holding the full credential A, R with expiry 61
seconds after clock zero. -/
def wFresh61 : World :=
  ⟨⟨true, some (.jsonCred ⟨some "A", some "R", some 61000⟩, ownerOnlyMode)⟩,
    envClean, 0, .networkError⟩

/-- A world with a long-expired stored credential and a token endpoint
answering the refresh with HTTP status text 401. -/
def wStale401 : World :=
  ⟨⟨true, some (.jsonCred ⟨some "A", some "R", some 1000⟩, ownerOnlyMode)⟩,
    envClean, 0, .httpError "401"⟩

/-- The rotation scenario of the specification: stored credential A, R
expired 1000 ms before clock zero, and a refresh response carrying B, R2
and a 3600 second lifetime. -/
def wRotate : World :=
  ⟨⟨true, some (.jsonCred ⟨some "A", some "R", some (-1000)⟩, ownerOnlyMode)⟩,
    envClean, 0, .success ⟨"B", "R2", 3600, none⟩⟩

/-- A 32-byte random draw. -/
def randA : List Nat := List.range 32

/-- A second, distinct 32-byte random draw. -/
def randB : List Nat := List.replicate 32 7

/-- A flow world whose stored credential is fresh but carries an empty
access token, so the accessor yields a token the flow treats as falsy. -/
def fwEmptyToken : FlowWorld :=
  ⟨⟨⟨true, some (.jsonCred ⟨some "", some "R", some 10000000⟩, ownerOnlyMode)⟩,
      envClean, 0, .networkError⟩,
    fun l => l, [], false, "c#s", .httpError "401"⟩

/-- A flow world whose stored credential is fresh with a nonempty access
token A. -/
def fwFresh : FlowWorld :=
  ⟨⟨⟨true, some (.jsonCred ⟨some "A", some "R", some 10000000⟩, ownerOnlyMode)⟩,
      envClean, 0, .networkError⟩,
    fun l => l, [], false, "c#s", .httpError "401"⟩

/-! Helper lemmas about strings, splitting and the base64url encoding. -/

theorem string_data_append (a b : String) : (a ++ b).data = a.data ++ b.data := by
  cases a; cases b; rfl

theorem splitChars_of_not_mem (sep : Char) :
    ∀ l : List Char, sep ∉ l → splitChars sep l = [l]
  | [], _ => rfl
  | c :: rest, h => by
    have hc : ¬ (c = sep) := fun e => h (by simp [e])
    have ih := splitChars_of_not_mem sep rest (fun m => h (by simp [m]))
    simp [splitChars, hc, ih]

theorem splitChars_append_sep (sep : Char) :
    ∀ a s : List Char, sep ∉ a →
      splitChars sep (a ++ sep :: s) = a :: splitChars sep s
  | [], s, _ => by simp [splitChars]
  | c :: a, s, h => by
    have hc : ¬ (c = sep) := fun e => h (by simp [e])
    have ih := splitChars_append_sep sep a s (fun m => h (by simp [m]))
    simp [splitChars, hc, ih]

theorem jsSplit_compound (a s : String) (ha : '#' ∉ a.data) (hs : '#' ∉ s.data) :
    jsSplit '#' (a ++ "#" ++ s) = [a, s] := by
  have hd : (a ++ "#" ++ s).data = a.data ++ '#' :: s.data := by
    rw [string_data_append, string_data_append]
    simp
  rw [jsSplit, hd, splitChars_append_sep _ _ _ ha, splitChars_of_not_mem _ _ hs]
  simp

theorem jsSplit_no_delim (s : String) (hs : '#' ∉ s.data) : jsSplit '#' s = [s] := by
  rw [jsSplit, splitChars_of_not_mem _ _ hs]
  simp

theorem b64Value_b64Char : ∀ n, n < 64 → b64Value (b64Char n) = n := by decide

theorem b64Char_alphabet : ∀ n, n < 64 → isB64UrlChar (b64Char n) = true := by decide

theorem isB64UrlChar_excludes (c : Char) (h : isB64UrlChar c = true) :
    c ≠ '=' ∧ c ≠ '+' ∧ c ≠ '/' := by
  refine ⟨?_, ?_, ?_⟩ <;> rintro rfl <;> exact absurd h (by decide)

theorem base64url_roundtrip : ∀ bs : List Nat, ValidBytes bs →
    base64urlDecode (base64urlEncode bs) = bs
  | [], _ => rfl
  | [b1], h => by
    have hb1 : b1 < 256 := h b1 (by simp)
    simp only [base64urlEncode, base64urlDecode]
    rw [b64Value_b64Char _ (by omega), b64Value_b64Char _ (by omega)]
    simp only [List.cons.injEq, and_true]
    omega
  | [b1, b2], h => by
    have hb1 : b1 < 256 := h b1 (by simp)
    have hb2 : b2 < 256 := h b2 (by simp)
    simp only [base64urlEncode, base64urlDecode]
    rw [b64Value_b64Char _ (by omega), b64Value_b64Char _ (by omega),
      b64Value_b64Char _ (by omega)]
    simp only [List.cons.injEq, and_true]
    constructor
    · omega
    · omega
  | b1 :: b2 :: b3 :: rest, h => by
    have hb1 : b1 < 256 := h b1 (by simp)
    have hb2 : b2 < 256 := h b2 (by simp)
    have hb3 : b3 < 256 := h b3 (by simp)
    have ih := base64url_roundtrip rest (fun b hb => h b (by simp [hb]))
    simp only [base64urlEncode, base64urlDecode]
    rw [b64Value_b64Char _ (by omega), b64Value_b64Char _ (by omega),
      b64Value_b64Char _ (by omega), b64Value_b64Char _ (by omega), ih]
    simp only [List.cons.injEq, and_true]
    refine ⟨by omega, by omega, by omega⟩

theorem base64urlEncode_inj (bs bt : List Nat) (h : ValidBytes bs) (h2 : ValidBytes bt)
    (he : base64urlEncode bs = base64urlEncode bt) : bs = bt := by
  rw [← base64url_roundtrip bs h, ← base64url_roundtrip bt h2, he]

theorem base64urlEncode_alphabet : ∀ bs : List Nat, ValidBytes bs →
    ∀ c ∈ base64urlEncode bs, isB64UrlChar c = true
  | [], _ => by simp [base64urlEncode]
  | [b1], h => by
    have hb1 : b1 < 256 := h b1 (by simp)
    intro c hc
    simp only [base64urlEncode, List.mem_cons, List.not_mem_nil, or_false] at hc
    rcases hc with rfl | rfl <;> exact b64Char_alphabet _ (by omega)
  | [b1, b2], h => by
    have hb1 : b1 < 256 := h b1 (by simp)
    have hb2 : b2 < 256 := h b2 (by simp)
    intro c hc
    simp only [base64urlEncode, List.mem_cons, List.not_mem_nil, or_false] at hc
    rcases hc with rfl | rfl | rfl <;> exact b64Char_alphabet _ (by omega)
  | b1 :: b2 :: b3 :: rest, h => by
    have hb1 : b1 < 256 := h b1 (by simp)
    have hb2 : b2 < 256 := h b2 (by simp)
    have hb3 : b3 < 256 := h b3 (by simp)
    have ih := base64urlEncode_alphabet rest (fun b hb => h b (by simp [hb]))
    intro c hc
    simp only [base64urlEncode, List.mem_cons] at hc
    rcases hc with rfl | rfl | rfl | rfl | hm
    · exact b64Char_alphabet _ (by omega)
    · exact b64Char_alphabet _ (by omega)
    · exact b64Char_alphabet _ (by omega)
    · exact b64Char_alphabet _ (by omega)
    · exact ih c hm

theorem base64urlEncode_length : ∀ bs : List Nat,
    (base64urlEncode bs).length = (bs.length * 4 + 2) / 3
  | [] => rfl
  | [_] => by simp [base64urlEncode]
  | [_, _] => by simp [base64urlEncode]
  | b1 :: b2 :: b3 :: rest => by
    simp only [base64urlEncode, List.length_cons, base64urlEncode_length rest]
    omega

/-! Claim theorems. -/

/-- Claim C1: for every stored credential, getClaudeAccessToken returns
the cached access_token with no network request and no store write when
expires_at exceeds the clock by more than 60000 ms, and issues a refresh
request otherwise; in particular an expiry 59 seconds ahead triggers a
refresh and one 61 seconds ahead is returned as cached. -/
theorem C1_expiry_margin (w : World) (c : JsonCred) (m : Nat) (e : Int)
    (hfile : w.fs.claudeFile = some (.jsonCred c, m))
    (hread : w.fsEnv.readFails = false)
    (_hvalid : isFullyValid c = true)
    (hexp : c.expires_at = some e) :
    (e > w.now + 60000 → getClaudeAccessToken w = ⟨c.access_token, w.fs, false⟩) ∧
    (e ≤ w.now + 60000 → (getClaudeAccessToken w).refreshAttempted = true) ∧
    (e = w.now + 59000 → (getClaudeAccessToken w).refreshAttempted = true) ∧
    (e = w.now + 61000 → getClaudeAccessToken w = ⟨c.access_token, w.fs, false⟩) := by
  have hload : loadCredentials w.fsEnv w.fs = some c := by
    simp [loadCredentials, hread, hfile]
  have refreshCase : jsGtOpt c.expires_at (w.now + 60000) = false →
      (getClaudeAccessToken w).refreshAttempted = true := by
    intro hgt
    simp only [getClaudeAccessToken, hload, hgt, Bool.false_eq_true, if_false]
    rcases hr : (refreshAccessToken c.refresh_token w.refreshFetch w.now).2 with er | nc
    · simp
    · simp only []
      split <;> rfl
  refine ⟨?_, ?_, ?_, ?_⟩
  · intro h
    simp [getClaudeAccessToken, hload, jsGtOpt, hexp, h]
  · intro h
    exact refreshCase (by simp [jsGtOpt, hexp]; omega)
  · intro h
    exact refreshCase (by simp [jsGtOpt, hexp]; omega)
  · intro h
    simp [getClaudeAccessToken, hload, jsGtOpt, hexp, h]

/-- Witness for C1: with the stored credential expiring 61 seconds after
clock zero, the accessor returns the cached token A, leaves the file
untouched and issues no request. -/
theorem C1_expiry_margin_witness :
    getClaudeAccessToken wFresh61 = ⟨some "A", wFresh61.fs, false⟩ :=
  (C1_expiry_margin wFresh61 ⟨some "A", some "R", some 61000⟩ ownerOnlyMode 61000
    rfl rfl rfl rfl).2.2.2 (by decide)

/-- Claim C2, counterexample: a credential file holding the valid JSON
object with only an access_token field loads as that partial object,
which is neither absent nor a fully valid credential, so load does not
treat every partial credential file as absent. -/
theorem C2_counterexample :
    loadCredentials envClean fsIncomplete = some incompleteCred ∧
    isFullyValid incompleteCred = false := ⟨rfl, rfl⟩

/-- Claim C2 as amended: loading never throws and yields the parsed file
content or absent; a missing file, a failing read, and malformed bytes
are each treated as absent, while a file holding any valid JSON value,
partial included, is returned as parsed without any field validation. -/
theorem C2_load_amended (env : FsEnv) (fs : FsState) :
    (fs.claudeFile = none → loadCredentials env fs = none) ∧
    (env.readFails = true → loadCredentials env fs = none) ∧
    (∀ m, fs.claudeFile = some (.malformedJson, m) →
      loadCredentials env fs = none) ∧
    (∀ c m, fs.claudeFile = some (.jsonCred c, m) → env.readFails = false →
      loadCredentials env fs = some c) := by
  refine ⟨?_, ?_, ?_, ?_⟩
  · intro h
    cases hr : env.readFails <;> simp [loadCredentials, hr, h]
  · intro h
    simp [loadCredentials, h]
  · intro m h
    cases hr : env.readFails <;> simp [loadCredentials, hr, h]
  · intro c m h hr
    simp [loadCredentials, hr, h]

/-- Witness for the amended C2: the partial credential file loads as its
parsed content. -/
theorem C2_load_amended_witness :
    loadCredentials envClean fsIncomplete = some incompleteCred :=
  (C2_load_amended envClean fsIncomplete).2.2.2 incompleteCred ownerOnlyMode rfl rfl

/-- Claim C3: with a stored credential at or within the 60 second margin
of expiry, any failing refresh interaction (non-success status, transport
error, or undecodable body) makes getClaudeAccessToken return null
without throwing, and the file on disk is left exactly as it was. -/
theorem C3_refresh_failure (w : World) (c : JsonCred) (m : Nat) (e : Int)
    (hfile : w.fs.claudeFile = some (.jsonCred c, m))
    (hread : w.fsEnv.readFails = false)
    (_hvalid : isFullyValid c = true)
    (hexp : c.expires_at = some e)
    (hstale : e ≤ w.now + 60000)
    (hfail : isFetchFailure w.refreshFetch = true) :
    getClaudeAccessToken w = ⟨none, w.fs, true⟩ := by
  have hload : loadCredentials w.fsEnv w.fs = some c := by
    simp [loadCredentials, hread, hfile]
  have hgt : jsGtOpt c.expires_at (w.now + 60000) = false := by
    simp [jsGtOpt, hexp]; omega
  cases hf : w.refreshFetch with
  | success d => rw [hf] at hfail; exact absurd hfail (by simp [isFetchFailure])
  | httpError st =>
    simp [getClaudeAccessToken, hload, hgt, refreshAccessToken, hf]
  | networkError =>
    simp [getClaudeAccessToken, hload, hgt, refreshAccessToken, hf]
  | malformedBody =>
    simp [getClaudeAccessToken, hload, hgt, refreshAccessToken, hf]

/-- Witness for C3: the expired-credential HTTP 401 scenario returns null
with the stale file unchanged. -/
theorem C3_refresh_failure_witness :
    getClaudeAccessToken wStale401 = ⟨none, wStale401.fs, true⟩ :=
  C3_refresh_failure wStale401 ⟨some "A", some "R", some 1000⟩ ownerOnlyMode 1000
    rfl rfl rfl rfl (by decide) rfl

/-- Claim C4: the PKCE verifier is exactly the unpadded URL-safe base64
text of the 32-byte (256-bit) random draw, so it contains only URL-safe
alphabet characters and no padding, plus or slash characters; the
challenge is the URL-safe base64 text of the SHA-256 digest of the
verifier text bytes; and distinct random draws give distinct verifiers,
the encoding being injective. Quality of the random source itself is a
property of the Node crypto library, outside the model. -/
theorem C4_pkce_contract (sha : List Nat → List Nat) (r1 r2 : List Nat)
    (h1 : ValidBytes r1) (hlen : r1.length = 32) (h2 : ValidBytes r2)
    (hne : r1 ≠ r2) :
    (generatePKCE sha r1).verifier = String.mk (base64urlEncode r1) ∧
    (∀ c ∈ (generatePKCE sha r1).verifier.data,
      isB64UrlChar c = true ∧ c ≠ '=' ∧ c ≠ '+' ∧ c ≠ '/') ∧
    (generatePKCE sha r1).verifier.length = 43 ∧
    (generatePKCE sha r1).challenge =
      String.mk (base64urlEncode (sha (textBytes (generatePKCE sha r1).verifier))) ∧
    (generatePKCE sha r1).verifier ≠ (generatePKCE sha r2).verifier := by
  refine ⟨rfl, ?_, ?_, rfl, ?_⟩
  · intro c hc
    have hc2 : c ∈ base64urlEncode r1 := hc
    have halpha := base64urlEncode_alphabet r1 h1 c hc2
    exact ⟨halpha, isB64UrlChar_excludes c halpha⟩
  · have hl : (generatePKCE sha r1).verifier.length = (base64urlEncode r1).length := rfl
    rw [hl, base64urlEncode_length, hlen]
  · intro he
    have hd : base64urlEncode r1 = base64urlEncode r2 := congrArg String.data he
    exact hne (base64urlEncode_inj r1 r2 h1 h2 hd)

/-- Witness for C4 at two concrete distinct 32-byte draws, with the
digest primitive instantiated by the identity function. -/
theorem C4_pkce_contract_witness :
    (generatePKCE id randA).verifier = String.mk (base64urlEncode randA) ∧
    (∀ c ∈ (generatePKCE id randA).verifier.data,
      isB64UrlChar c = true ∧ c ≠ '=' ∧ c ≠ '+' ∧ c ≠ '/') ∧
    (generatePKCE id randA).verifier.length = 43 ∧
    (generatePKCE id randA).challenge =
      String.mk (base64urlEncode (id (textBytes (generatePKCE id randA).verifier))) ∧
    (generatePKCE id randA).verifier ≠ (generatePKCE id randB).verifier :=
  C4_pkce_contract id randA randB (by decide) (by decide) (by decide) (by decide)

/-- Claim C5: for a compound input made of a hash-free authorization code,
the hash delimiter and a hash-free state value, the code-exchange request
body carries the code piece, the state piece, the authorization_code
grant type, the fixed client id, the fixed redirect target, and the
verifier. -/
theorem C5_code_state_split (a s verifier : String) (fetch : FetchResult) (now : Int)
    (ha : '#' ∉ a.data) (hs : '#' ∉ s.data) :
    (exchangeCodeForTokens (a ++ "#" ++ s) verifier fetch now).1.code = a ∧
    (exchangeCodeForTokens (a ++ "#" ++ s) verifier fetch now).1.state = some s ∧
    (exchangeCodeForTokens (a ++ "#" ++ s) verifier fetch now).1.grant_type =
      "authorization_code" ∧
    (exchangeCodeForTokens (a ++ "#" ++ s) verifier fetch now).1.client_id = CLIENT_ID ∧
    (exchangeCodeForTokens (a ++ "#" ++ s) verifier fetch now).1.redirect_uri =
      REDIRECT_URI ∧
    (exchangeCodeForTokens (a ++ "#" ++ s) verifier fetch now).1.code_verifier =
      verifier := by
  have h := jsSplit_compound a s ha hs
  refine ⟨?_, ?_, rfl, rfl, rfl, rfl⟩ <;>
    simp [exchangeCodeForTokens, exchangeCodeBody, h]

/-- Witness for C5: the specification scenario with input
abc123#xyzstate. -/
theorem C5_code_state_split_witness :
    (exchangeCodeForTokens ("abc123" ++ "#" ++ "xyzstate") "v" .networkError 0).1.code =
      "abc123" ∧
    (exchangeCodeForTokens ("abc123" ++ "#" ++ "xyzstate") "v" .networkError 0).1.state =
      some "xyzstate" ∧
    (exchangeCodeForTokens ("abc123" ++ "#" ++ "xyzstate") "v" .networkError 0).1.grant_type =
      "authorization_code" ∧
    (exchangeCodeForTokens ("abc123" ++ "#" ++ "xyzstate") "v" .networkError 0).1.client_id =
      CLIENT_ID ∧
    (exchangeCodeForTokens ("abc123" ++ "#" ++ "xyzstate") "v" .networkError 0).1.redirect_uri =
      REDIRECT_URI ∧
    (exchangeCodeForTokens ("abc123" ++ "#" ++ "xyzstate") "v" .networkError 0).1.code_verifier =
      "v" :=
  C5_code_state_split "abc123" "xyzstate" "v" .networkError 0 (by decide) (by decide)

/-- Claim C6: on any successful token-endpoint response, both exchange
operations build the credential whose expires_at is the receipt clock
reading plus expires_in scaled from seconds to milliseconds, whatever
absolute expiry the response body may also carry. -/
theorem C6_expires_at_computation (d : TokenData) (now : Int) (code verifier : String)
    (rt : Option String) :
    (exchangeCodeForTokens code verifier (.success d) now).2 =
      Except.ok ⟨d.access_token, d.refresh_token, now + d.expires_in * 1000⟩ ∧
    (refreshAccessToken rt (.success d) now).2 =
      Except.ok ⟨d.access_token, d.refresh_token, now + d.expires_in * 1000⟩ :=
  ⟨rfl, rfl⟩

/-- Claim C7: when a stored credential within the expiry margin is
refreshed and the endpoint answers successfully, the accessor returns the
new access token and the persisted file holds the full new credential,
its refresh_token being the one the endpoint returned, replacing the
stored one. -/
theorem C7_refresh_rotation (w : World) (c : JsonCred) (m : Nat) (e : Int) (d : TokenData)
    (hfile : w.fs.claudeFile = some (.jsonCred c, m))
    (hread : w.fsEnv.readFails = false)
    (_hvalid : isFullyValid c = true)
    (hexp : c.expires_at = some e)
    (hstale : e ≤ w.now + 60000)
    (hfetch : w.refreshFetch = .success d)
    (hmk : w.fsEnv.mkdirFails = false)
    (hwr : w.fsEnv.writeFails = false) :
    (getClaudeAccessToken w).token = some d.access_token ∧
    (getClaudeAccessToken w).refreshAttempted = true ∧
    storedJson (getClaudeAccessToken w).fs =
      some ⟨some d.access_token, some d.refresh_token, some (w.now + d.expires_in * 1000)⟩ := by
  have hload : loadCredentials w.fsEnv w.fs = some c := by
    simp [loadCredentials, hread, hfile]
  have hgt : jsGtOpt c.expires_at (w.now + 60000) = false := by
    simp [jsGtOpt, hexp]; omega
  cases hch : w.fsEnv.chmodFails <;>
    simp [getClaudeAccessToken, hload, hgt, refreshAccessToken, hfetch,
      saveCredentials, hmk, hwr, hch, storedJson, toJsonCred]

/-- Witness for C7: the rotation scenario of the specification; the
accessor returns B and the stored file now carries refresh token R2. -/
theorem C7_refresh_rotation_witness :
    (getClaudeAccessToken wRotate).token = some "B" ∧
    (getClaudeAccessToken wRotate).refreshAttempted = true ∧
    storedJson (getClaudeAccessToken wRotate).fs =
      some ⟨some "B", some "R2", some (0 + 3600 * 1000)⟩ :=
  C7_refresh_rotation wRotate ⟨some "A", some "R", some (-1000)⟩ ownerOnlyMode (-1000)
    ⟨"B", "R2", 3600, none⟩ rfl rfl rfl rfl (by decide) rfl rfl rfl

/-- Claim C8: when mkdir and the write succeed, save succeeds, the
containing directory exists afterwards and the file holds exactly the
serialized credential; the chmod restriction to owner read and write is
applied when it succeeds and its failure alone is swallowed; a write
failure makes save fail. -/
theorem C8_save_contract (creds : Credentials) (env : FsEnv) (fs : FsState) :
    (env.mkdirFails = false → env.writeFails = false →
      (saveCredentials creds env fs).ok = true ∧
      (saveCredentials creds env fs).fs.dirExists = true ∧
      (∃ mode, (saveCredentials creds env fs).fs.claudeFile =
        some (.jsonCred (toJsonCred creds), mode))) ∧
    (env.mkdirFails = false → env.writeFails = false → env.chmodFails = false →
      (saveCredentials creds env fs).fs.claudeFile =
        some (.jsonCred (toJsonCred creds), ownerOnlyMode)) ∧
    (env.mkdirFails = false → env.writeFails = false → env.chmodFails = true →
      (saveCredentials creds env fs).ok = true) ∧
    (env.mkdirFails = false → env.writeFails = true →
      (saveCredentials creds env fs).ok = false) := by
  refine ⟨?_, ?_, ?_, ?_⟩
  · intro h1 h2
    cases hch : env.chmodFails <;> simp [saveCredentials, h1, h2, hch]
  · intro h1 h2 h3
    simp [saveCredentials, h1, h2, h3]
  · intro h1 h2 h3
    simp [saveCredentials, h1, h2, h3]
  · intro h1 h2
    simp [saveCredentials, h1, h2]

/-- Witness for C8: saving the credential A, R, 0 into an empty store
with all primitives succeeding yields a successful save. -/
theorem C8_save_contract_witness :
    (saveCredentials ⟨"A", "R", 0⟩ envClean ⟨false, none⟩).ok = true ∧
    (saveCredentials ⟨"A", "R", 0⟩ envClean ⟨false, none⟩).fs.dirExists = true ∧
    (∃ mode, (saveCredentials ⟨"A", "R", 0⟩ envClean ⟨false, none⟩).fs.claudeFile =
      some (.jsonCred (toJsonCred ⟨"A", "R", 0⟩), mode)) :=
  (C8_save_contract ⟨"A", "R", 0⟩ envClean ⟨false, none⟩).1 rfl rfl

/-- Claim C9, counterexample: with a stored fresh credential whose access
token is the empty string, the accessor yields that token, yet the
interactive flow does not short-circuit: it generates a PKCE pair and
attempts a code exchange, because line 210 of the source tests JavaScript
truthiness and the empty string is falsy. -/
theorem C9_counterexample :
    (getClaudeAccessToken fwEmptyToken.world).token = some "" ∧
    (authenticateWithClaude fwEmptyToken).pkceGenerated = true ∧
    (authenticateWithClaude fwEmptyToken).browserAttempted = true ∧
    (authenticateWithClaude fwEmptyToken).prompted = true ∧
    (authenticateWithClaude fwEmptyToken).exchangeAttempted = true :=
  ⟨rfl, rfl, rfl, rfl, rfl⟩

/-- Claim C9 as amended: whenever the accessor yields a nonempty token,
the interactive flow short-circuits and returns exactly that token, with
no PKCE generation, no browser launch, no prompt, no code exchange, and
no store write beyond what the accessor call itself did. -/
theorem C9_short_circuit (fw : FlowWorld) (t : String)
    (ht : (getClaudeAccessToken fw.world).token = some t) (hne : t ≠ "") :
    authenticateWithClaude fw =
      ⟨.ok t, (getClaudeAccessToken fw.world).fs, false, false, false, false⟩ := by
  simp [authenticateWithClaude, ht, jsTruthy, hne]

/-- Witness for the amended C9: a fresh stored credential with token A
short-circuits the flow. -/
theorem C9_short_circuit_witness :
    authenticateWithClaude fwFresh =
      ⟨.ok "A", (getClaudeAccessToken fwFresh.world).fs, false, false, false, false⟩ :=
  C9_short_circuit fwFresh "A" rfl (by decide)

/-- Claim C10: an input with no hash delimiter is sent whole as the code
field and the state field is undefined, omitted from the serialized
body; the exchange still proceeds rather than rejecting the input. -/
theorem C10_no_delimiter (input verifier : String) (fetch : FetchResult) (now : Int)
    (h : '#' ∉ input.data) :
    (exchangeCodeForTokens input verifier fetch now).1.code = input ∧
    (exchangeCodeForTokens input verifier fetch now).1.state = none := by
  have hs := jsSplit_no_delim input h
  constructor <;> simp [exchangeCodeForTokens, exchangeCodeBody, hs]

/-- Witness for C10: a plain authorization code with no delimiter is sent
whole with no state field. -/
theorem C10_no_delimiter_witness :
    (exchangeCodeForTokens "abc123" "v" .networkError 0).1.code = "abc123" ∧
    (exchangeCodeForTokens "abc123" "v" .networkError 0).1.state = none :=
  C10_no_delimiter "abc123" "v" .networkError 0 (by decide)
